import Mathlib

/-!
Verification development for the Previa compliance-screening backend.

The definitions in this file are a shallow embedding of the Python modules
under backend/app: risk severity rules (config/risk_rules.py), the watchlist
sweep job (data/sources/sweep_job.py), the ingestion job
(data/sources/ingestion_job.py), the SAT open-data fetcher
(data/sources/sat_datos_abiertos_fetcher.py) and the DOF fetcher
(data/sources/dof_fetcher.py).  Timestamps are modelled as natural numbers,
database tables as lists of rows, and Python dicts as structures whose
fields are the keys the code reads or writes.
-/

namespace Previa

/-! ## config/risk_rules.py -/

/-- Risk level classification (CRITICAL > HIGH > MEDIUM > LOW > CLEAR). -/
inductive RiskLevel where
  | CRITICAL
  | HIGH
  | MEDIUM
  | LOW
  | CLEAR
deriving DecidableEq, Repr

/-- Article 69-B status classifications. -/
inductive Art69BStatus where
  | PRESUNTO
  | DESVIRTUADO
  | DEFINITIVO
  | SENTENCIA_FAVORABLE
  | NOT_FOUND
deriving DecidableEq, Repr

/-- Article 69 non-compliance categories. -/
inductive Art69Category where
  | CREDITO_FIRME
  | NO_LOCALIZADO
  | CREDITO_CANCELADO
  | SENTENCIA_CONDENATORIA
  | CSD_SIN_EFECTOS
deriving DecidableEq, Repr

/-- Digital certificate status. -/
inductive CertificateStatus where
  | ACTIVE
  | EXPIRED
  | REVOKED
  | NOT_FOUND
deriving DecidableEq, Repr

/-- The `.value` string of each `Art69BStatus` member. -/
def art69bStatusValue : Art69BStatus → String
  | .PRESUNTO => "presunto"
  | .DESVIRTUADO => "desvirtuado"
  | .DEFINITIVO => "definitivo"
  | .SENTENCIA_FAVORABLE => "sentencia_favorable"
  | .NOT_FOUND => "not_found"

/-- The `.value` string of each `RiskLevel` member. -/
def riskLevelValue : RiskLevel → String
  | .CRITICAL => "CRITICAL"
  | .HIGH => "HIGH"
  | .MEDIUM => "MEDIUM"
  | .LOW => "LOW"
  | .CLEAR => "CLEAR"

/-- Severity priority tuple (higher index = higher severity). -/
def _SEVERITY_ORDER : List RiskLevel :=
  [.CLEAR, .LOW, .MEDIUM, .HIGH, .CRITICAL]

/-- risk_rules._level_priority: index in _SEVERITY_ORDER, 0 if absent. -/
def _level_priority (level : RiskLevel) : Nat :=
  if _SEVERITY_ORDER.contains level then _SEVERITY_ORDER.indexOf level else 0

/-- The findings dict read by calculate_risk_score.  The sweep job passes the
enum members for the keys it sets; a missing key reads as Python None /
falsy, modelled by none and false. -/
structure Findings where
  art_69b_status : Option Art69BStatus
  art_49_bis_found : Bool
  art_69_categories : List Art69Category
  cert_status : Option CertificateStatus
deriving DecidableEq, Repr

/-- The level appended for one Art. 69 category by the if/elif chain in
calculate_risk_score (every constructor appends exactly one candidate). -/
def catCandidate : Art69Category → RiskLevel
  | .SENTENCIA_CONDENATORIA => .CRITICAL
  | .NO_LOCALIZADO => .MEDIUM
  | .CREDITO_FIRME => .LOW
  | .CSD_SIN_EFECTOS => .LOW
  | .CREDITO_CANCELADO => .LOW

/-- Candidates appended for the art_69b_status key: definitivo and presunto
append HIGH; any other member except not_found appends LOW (desvirtuado,
sentencia_favorable); a missing or not_found status appends nothing. -/
def art69bCandidates : Option Art69BStatus → List RiskLevel
  | some .DEFINITIVO => [.HIGH]
  | some .PRESUNTO => [.HIGH]
  | some .DESVIRTUADO => [.LOW]
  | some .SENTENCIA_FAVORABLE => [.LOW]
  | some .NOT_FOUND => []
  | none => []

/-- Candidates appended for the cert_status key: revoked and expired append
LOW; anything else appends nothing. -/
def certCandidates : Option CertificateStatus → List RiskLevel
  | some .REVOKED => [.LOW]
  | some .EXPIRED => [.LOW]
  | some .ACTIVE => []
  | some .NOT_FOUND => []
  | none => []

/-- The candidates list built by calculate_risk_score, in program order:
Art. 69-B status, the 49-Bis flag, the Art. 69 categories, then the
certificate status. -/
def candidates (f : Findings) : List RiskLevel :=
  art69bCandidates f.art_69b_status
  ++ (if f.art_49_bis_found then [.HIGH] else [])
  ++ f.art_69_categories.map catCandidate
  ++ certCandidates f.cert_status

/-- The fixed score lookup applied to the resolved level. -/
def score_map : RiskLevel → Nat
  | .CLEAR => 0
  | .LOW => 25
  | .MEDIUM => 50
  | .HIGH => 80
  | .CRITICAL => 100

/-- One step of Python max(..., key=_level_priority): keep the current best
unless the next candidate has strictly higher priority. -/
def levelJoin (best x : RiskLevel) : RiskLevel :=
  if _level_priority best < _level_priority x then x else best

/-- risk_rules.calculate_risk_score: fixed severity mapping, highest
candidate wins; (0, CLEAR) when no candidate was appended. -/
def calculate_risk_score (f : Findings) : Nat × RiskLevel :=
  match candidates f with
  | [] => (0, .CLEAR)
  | c :: rest =>
    let risk_level := rest.foldl levelJoin c
    (score_map risk_level, risk_level)

/-- The resolved level equals the levelJoin fold over the candidate list
started at CLEAR. -/
def joinAll (f : Findings) : RiskLevel :=
  (candidates f).foldl levelJoin .CLEAR

/-! ## Declarative severity table (spec section 4.5, corrected to the code) -/

/-- Per-finding level for the Art. 69-B status column of the severity table. -/
def art69bTableLevel : Option Art69BStatus → RiskLevel
  | some .DEFINITIVO => .HIGH
  | some .PRESUNTO => .HIGH
  | some .DESVIRTUADO => .LOW
  | some .SENTENCIA_FAVORABLE => .LOW
  | some .NOT_FOUND => .CLEAR
  | none => .CLEAR

/-- Per-finding level for the 49-Bis boolean flag. -/
def flagTableLevel (b : Bool) : RiskLevel :=
  if b then .HIGH else .CLEAR

/-- Per-finding level for each Art. 69 category. -/
def categoryTableLevel : Art69Category → RiskLevel
  | .SENTENCIA_CONDENATORIA => .CRITICAL
  | .NO_LOCALIZADO => .MEDIUM
  | .CREDITO_FIRME => .LOW
  | .CSD_SIN_EFECTOS => .LOW
  | .CREDITO_CANCELADO => .LOW

/-- Per-finding level for the certificate status. -/
def certTableLevel : Option CertificateStatus → RiskLevel
  | some .REVOKED => .LOW
  | some .EXPIRED => .LOW
  | _ => .CLEAR

/-- Highest level contributed by the Art. 69 categories of a findings input. -/
def catsJoin (l : List Art69Category) : RiskLevel :=
  l.foldl (fun a c => levelJoin a (categoryTableLevel c)) .CLEAR

/-- The highest-severity level among the per-finding levels of the full
severity table (the declarative reading of spec section 4.5). -/
def amendedTableLevel (f : Findings) : RiskLevel :=
  levelJoin (levelJoin (levelJoin
    (art69bTableLevel f.art_69b_status)
    (flagTableLevel f.art_49_bis_found))
    (catsJoin f.art_69_categories))
    (certTableLevel f.cert_status)

/-- The severity table exactly as claim C1 lists it: no row for the 49-Bis
flag, none for a desvirtuado or sentencia_favorable class-B status, and none
for the credito_cancelado category. -/
def claimTableCategoryLevel : Art69Category → RiskLevel
  | .SENTENCIA_CONDENATORIA => .CRITICAL
  | .NO_LOCALIZADO => .MEDIUM
  | .CREDITO_FIRME => .LOW
  | .CSD_SIN_EFECTOS => .LOW
  | .CREDITO_CANCELADO => .CLEAR

/-- The level the literal table of claim C1 assigns to a findings input. -/
def claimTableLevel (f : Findings) : RiskLevel :=
  levelJoin (levelJoin
    (match f.art_69b_status with
     | some .DEFINITIVO => RiskLevel.HIGH
     | some .PRESUNTO => RiskLevel.HIGH
     | _ => RiskLevel.CLEAR)
    (f.art_69_categories.foldl (fun a c => levelJoin a (claimTableCategoryLevel c)) .CLEAR))
    (certTableLevel f.cert_status)

/-- The (score, level) pair the literal table of claim C1 predicts. -/
def claimTableResult (f : Findings) : Nat × RiskLevel :=
  (score_map (claimTableLevel f), claimTableLevel f)

/-! ## Python module-level import semantics for sweep_job and the scheduler -/

/-- The names bound at module top level by config/risk_rules.py: the
imported name Enum and the seven definitions of the module. -/
def risk_rules_module_names : List String :=
  ["Enum", "RiskLevel", "Art69BStatus", "Art69Category", "CertificateStatus",
   "_SEVERITY_ORDER", "_level_priority", "calculate_risk_score"]

/-- The names data/sources/sweep_job.py imports from app.config.risk_rules
(lines 18-20). -/
def sweep_job_risk_rules_imports : List String :=
  ["Art69BStatus", "Art69Category", "calculate_risk_score", "get_risk_level"]

/-- Python from-import: succeeds only when every requested name is bound in
the source module; otherwise initialization of the importing module raises
ImportError. -/
def from_import_ok (moduleNames imports : List String) : Bool :=
  imports.all (fun n => moduleNames.contains n)

/-- Initializing app.data.sources.sweep_job executes its top-level imports;
the from-import of risk_rules is the one that can fail. -/
def import_sweep_job : Except String Unit :=
  if from_import_ok risk_rules_module_names sweep_job_risk_rules_imports then
    .ok ()
  else
    .error "ImportError"

/-- Initializing app.scheduler (line 17 imports sweep_watchlist_companies
from app.data.sources.sweep_job) first initializes sweep_job, so it fails
whenever the imports of sweep_job itself fail. -/
def import_scheduler : Except String Unit :=
  match import_sweep_job with
  | .ok _ => .ok ()
  | .error e => .error e

/-- Any attempt to execute the resweep must first import the module defining
sweep_watchlist_companies. -/
def resweep_attempt : Except String Unit :=
  match import_sweep_job with
  | .ok _ => .ok ()
  | .error e => .error e

/-! ## ingestion_job.py calling SATDatosAbiertosFetcher.run -/

/-- Files per batch in the phased sweep (ingestion_job.py). -/
def SAT_FILES_PER_BATCH : Nat := 15

/-- Rows per file cap in the phased sweep (ingestion_job.py). -/
def SAT_MAX_ROWS_PER_FILE : Nat := 40000

/-- The keyword parameters accepted by SATDatosAbiertosFetcher.run
(sat_datos_abiertos_fetcher.py line 352: only max_files besides cls). -/
def sat_run_accepted_params : List String := ["max_files"]

/-- The keyword arguments run_ingestion passes to SATDatosAbiertosFetcher.run
for a given sat_batch_index (ingestion_job.py lines 35 and 58-62). -/
def run_ingestion_sat_kwargs (sat_batch_index : Nat) : List (String × Nat) :=
  [("max_files", SAT_FILES_PER_BATCH),
   ("max_rows_per_file", SAT_MAX_ROWS_PER_FILE),
   ("start_file_offset", sat_batch_index * SAT_FILES_PER_BATCH)]

/-- Python call semantics: a call succeeds only when every keyword argument
names an accepted parameter; otherwise it raises TypeError. -/
def python_kwargs_ok (params : List String) (kwargs : List (String × Nat)) : Bool :=
  kwargs.all (fun kv => params.contains kv.1)

/-- run_ingestion reaches the SATDatosAbiertosFetcher.run call for every
batch index; the except-block re-raises after rollback, so a TypeError from
the call aborts the whole batch. -/
def run_ingestion_outcome (sat_batch_index : Nat) : Except String Unit :=
  if python_kwargs_ok sat_run_accepted_params (run_ingestion_sat_kwargs sat_batch_index) then
    .ok ()
  else
    .error "TypeError"

/-! ## Python string primitives used by the fetchers -/

/-- seqStartsWith hay needle: needle is an initial segment of hay. -/
def seqStartsWith : List Char → List Char → Bool
  | _, [] => true
  | [], _ :: _ => false
  | h :: hs, n :: ns => h == n && seqStartsWith hs ns

/-- seqContains hay needle: needle occurs contiguously inside hay
(Python `needle in hay`). -/
def seqContains : List Char → List Char → Bool
  | [], needle => needle.isEmpty
  | h :: hs, needle => seqStartsWith (h :: hs) needle || seqContains hs needle

/-- Python substring containment `needle in hay`. -/
def strContains (hay needle : String) : Bool :=
  seqContains hay.data needle.data

/-- Python str.endswith. -/
def strEndsWith (s suffix : String) : Bool :=
  seqStartsWith s.data.reverse suffix.data.reverse

/-- Python str.lower restricted to the alphabet this domain uses (ASCII plus
the accented Spanish capitals appearing in titles and headers). -/
def pyLowerChar (c : Char) : Char :=
  if 'A' ≤ c && c ≤ 'Z' then Char.ofNat (c.toNat + 32)
  else if c = 'Á' then 'á'
  else if c = 'É' then 'é'
  else if c = 'Í' then 'í'
  else if c = 'Ó' then 'ó'
  else if c = 'Ú' then 'ú'
  else if c = 'Ñ' then 'ñ'
  else if c = 'Ü' then 'ü'
  else c

/-- Python str.upper restricted the same way. -/
def pyUpperChar (c : Char) : Char :=
  if 'a' ≤ c && c ≤ 'z' then Char.ofNat (c.toNat - 32)
  else if c = 'á' then 'Á'
  else if c = 'é' then 'É'
  else if c = 'í' then 'Í'
  else if c = 'ó' then 'Ó'
  else if c = 'ú' then 'Ú'
  else if c = 'ñ' then 'Ñ'
  else if c = 'ü' then 'Ü'
  else c

def pyLower (s : String) : String := String.mk (s.data.map pyLowerChar)

def pyUpper (s : String) : String := String.mk (s.data.map pyUpperChar)

/-- The whitespace set of Python str.strip. -/
def isPySpace (c : Char) : Bool :=
  c == ' ' || c == '\t' || c == '\n' || c == '\x0b' || c == '\x0c' || c == '\r'

/-- Python str.strip with no argument. -/
def pyStrip (s : String) : String :=
  String.mk (((s.data.dropWhile isPySpace).reverse.dropWhile isPySpace).reverse)

/-- Python truncation s[:n]. -/
def strTake (s : String) (n : Nat) : String := String.mk (s.data.take n)

/-! ## dof_fetcher.py: notice classification -/

/-- dof_fetcher._ARTICLE_RULES: ordered (keyword, article_type, status)
triples; 69-B Bis rules precede 69-B to avoid a false match. -/
def _ARTICLE_RULES : List (String × String × Option String) :=
  [("69-b bis", "art_69_bis", none),
   ("69 b bis", "art_69_bis", none),
   ("pérdidas fiscales", "art_69_bis", none),
   ("69-b", "art_69b", none),
   ("efos", "art_69b", none),
   ("operaciones presuntamente inexistentes", "art_69b", none),
   ("operaciones simuladas", "art_69b", none),
   ("operaciones inexistentes", "art_69b", none),
   ("49 bis", "art_49_bis", none),
   ("49-bis", "art_49_bis", none),
   ("artículo 69", "art_69", none),
   ("contribuyentes incumplidos", "art_69", none),
   ("no localizado", "art_69", some "no_localizado"),
   ("crédito fiscal firme", "art_69", some "credito_firme"),
   ("créditos fiscales", "art_69", some "credito_firme"),
   ("sello digital", "art_69", some "csd_sin_efectos")]

/-- dof_fetcher._STATUS_HINTS: ordered (keyword, status) pairs. -/
def _STATUS_HINTS : List (String × String) :=
  [("presunto", "presunto"),
   ("definitivo", "definitivo"),
   ("desvirtuado", "desvirtuado"),
   ("sentencia favorable", "sentencia_favorable"),
   ("sentencias favorable", "sentencia_favorable"),
   ("sentencia condenatoria", "sentencia_condenatoria"),
   ("no localizado", "no_localizado"),
   ("cancelado", "credito_cancelado"),
   ("firme", "credito_firme")]

/-- The status-hint scan run when the matched article rule pinned no
status. -/
def findStatusHint (t : String) : Option String :=
  (_STATUS_HINTS.find? (fun r => strContains t r.1)).map (fun r => r.2)

/-- dof_fetcher._classify_notice: first keyword match in _ARTICLE_RULES wins
on the lowercased title t (default art_69b); when the matched rule carries
no status the _STATUS_HINTS list is scanned. -/
def _classify_notice (title : String) : String × Option String :=
  match _ARTICLE_RULES.find? (fun r => strContains (pyLower title) r.1) with
  | some r =>
    match r.2.2 with
    | some st => (r.2.1, some st)
    | none => (r.2.1, findStatusHint (pyLower title))
  | none => ("art_69b", findStatusHint (pyLower title))

/-! ## sat_datos_abiertos_fetcher.py: download-link classification -/

/-- sat_datos_abiertos_fetcher.FILE_CLASSIFICATION: ordered
(keyword, article_type, status/category) triples; first match wins. -/
def FILE_CLASSIFICATION : List (String × String × Option String) :=
  [("definitivo", "art_69b", some "definitivo"),
   ("presunto", "art_69b", some "presunto"),
   ("desvirtuado", "art_69b", some "desvirtuado"),
   ("sentencia favorable", "art_69b", some "sentencia_favorable"),
   ("sentencias favorable", "art_69b", some "sentencia_favorable"),
   ("listado completo", "art_69b", none),
   ("listado global", "art_69_bis", some "definitivo"),
   ("69-b bis", "art_69_bis", none),
   ("firme", "art_69", some "credito_firme"),
   ("no localizado", "art_69", some "no_localizado"),
   ("cancelado", "art_69", some "credito_cancelado"),
   ("sentencia", "art_69", some "sentencia_condenatoria"),
   ("exigible", "art_69", some "credito_firme"),
   ("csd sin efecto", "art_69", none),
   ("entes públicos", "art_69", none),
   ("gobierno omisos", "art_69", none),
   ("omisos", "art_69", none),
   ("retorno", "art_69", none),
   ("inversiones", "art_69", none),
   ("condonado", "art_69", some "credito_cancelado"),
   ("concurso mercantil", "art_69", some "credito_cancelado"),
   ("146b", "art_69", some "credito_cancelado"),
   ("por decreto", "art_69", some "credito_cancelado"),
   ("146a", "art_69", some "credito_cancelado"),
   ("reducción de multa", "art_69", some "credito_cancelado"),
   ("reducción de recargo", "art_69", some "credito_cancelado"),
   ("artículo 74", "art_69", some "credito_cancelado"),
   ("artículo 21", "art_69", some "credito_cancelado")]

/-- sat_datos_abiertos_fetcher._classify_link: first keyword match in
FILE_CLASSIFICATION on the lowercased, stripped link text; default
(art_69b, None). -/
def _classify_link (link_text : String) : String × Option String :=
  match FILE_CLASSIFICATION.find? (fun r => strContains (pyStrip (pyLower link_text)) r.1) with
  | some r => (r.2.1, r.2.2)
  | none => ("art_69b", none)

/-! ## sat_datos_abiertos_fetcher.py: tabular extraction -/

/-- A parsed table: ordered column names and rows of optional cells (a
missing / NaN cell is none). -/
structure DataFrame where
  cols : List String
  rows : List (List (Option String))
deriving DecidableEq, Repr

/-- Cell of one row under a column name (pandas row[col]: first column with
that name; absent column or short row reads as NaN). -/
def rowCell (df : DataFrame) (r : List (Option String)) (name : String) : Option String :=
  match df.cols.findIdx? (fun c => c == name) with
  | some i => (r.get? i).join
  | none => none

/-- All cells of a named column, top to bottom. -/
def colValues (df : DataFrame) (name : String) : List (Option String) :=
  df.rows.map (fun r => rowCell df r name)

/-- First character class of RFC_PATTERN: A-Z, Ñ or ampersand. -/
def isRfcLetter (c : Char) : Bool :=
  ('A' ≤ c && c ≤ 'Z') || c == 'Ñ' || c == '&'

def isRfcDigit (c : Char) : Bool := '0' ≤ c && c ≤ '9'

def isRfcAlnum (c : Char) : Bool := ('A' ≤ c && c ≤ 'Z') || isRfcDigit c

/-- RFC_PATTERN.fullmatch: 3-4 letters (A-Z, Ñ, ampersand), 6 digits, 3
alphanumerics. -/
def rfcFullmatch (s : String) : Bool :=
  let cs := s.data
  let n := cs.length
  (n == 12 || n == 13) &&
  (cs.take (n - 9)).all isRfcLetter &&
  ((cs.drop (n - 9)).take 6).all isRfcDigit &&
  ((cs.drop (n - 3)).all isRfcAlnum)

/-- The exact header names recognized for the RFC column
(_find_rfc_column tier 1), compared after strip().upper(). -/
def RFC_HEADER_SET : List String :=
  ["RFC", "R.F.C.", "RFC_CONTRIBUYENTE", "RFC CONTRIBUYENTE"]

def isRfcHeaderName (name : String) : Bool :=
  RFC_HEADER_SET.contains (pyUpper (pyStrip name))

/-- Tier 2 of _find_rfc_column for one column: sample the first 20 non-null
values; qualify when the match count reaches max(1, 0.4 * sample size).
Multiplying both sides by 5 makes the comparison exact; for sample sizes up
to 20 the Python float comparison agrees with this rational one. -/
def tier2Qualifies (vals : List (Option String)) : Bool :=
  let sample := (vals.filterMap id).take 20
  let hits := (sample.filter (fun v => rfcFullmatch (pyUpper (pyStrip v)))).length
  5 * hits ≥ max 5 (2 * sample.length)

/-- sat_datos_abiertos_fetcher._find_rfc_column: first column whose
normalized name is a known RFC header; else first column whose sampled
content qualifies; else None. -/
def _find_rfc_column (df : DataFrame) : Option String :=
  match df.cols.find? isRfcHeaderName with
  | some c => some c
  | none => df.cols.find? (fun c => tier2Qualifies (colValues df c))

/-- Keywords recognized (by containment in the normalized name) for the
entity-name column. -/
def RAZON_KEYWORDS : List String :=
  ["RAZON", "RAZÓN", "NOMBRE", "DENOMINACION", "DENOMINACIÓN"]

/-- sat_datos_abiertos_fetcher._find_razon_column: first non-RFC column whose
normalized name contains an entity-name keyword. -/
def _find_razon_column (df : DataFrame) (rfc_col : String) : Option String :=
  df.cols.find? (fun c =>
    !(c == rfc_col) && RAZON_KEYWORDS.any (fun kw => strContains (pyUpper (pyStrip c)) kw))

/-- Keywords recognized for the status column. -/
def STATUS_KEYWORDS : List String :=
  ["SITUACION", "SITUACIÓN", "ESTATUS", "STATUS", "SUPUESTO"]

/-- sat_datos_abiertos_fetcher._find_status_column. -/
def _find_status_column (df : DataFrame) : Option String :=
  df.cols.find? (fun c =>
    STATUS_KEYWORDS.any (fun kw => strContains (pyUpper (pyStrip c)) kw))

/-- The notice dict built by extract_notices_from_df for one row. -/
structure SatNotice where
  source : String
  source_url : String
  dof_url : Option String
  rfc : String
  razon_social : Option String
  article_type : String
  status : Option String
  category : Option String
  oficio_number : Option String
  authority : String
  motivo : Option String
  published_at : Option Nat
  raw_snippet : Option String
deriving DecidableEq, Repr

/-- Python str() of a cell: a NaN cell prints as nan (which upper-cases to
NAN and never matches RFC_PATTERN). -/
def cellStr : Option String → String
  | some s => s
  | none => "nan"

/-- sat_datos_abiertos_fetcher.extract_notices_from_df: locate the RFC column
(empty result when none), then per row validate the RFC cell against
RFC_PATTERN (silently dropping non-matching rows) and emit one notice dict,
reading the entity name and — only when no default status was given — the
status column. -/
def extract_notices_from_df (df : DataFrame) (source_url article_type : String)
    (default_status : Option String) : List SatNotice :=
  match _find_rfc_column df with
  | none => []
  | some rfc_col =>
    let razon_col := _find_razon_column df rfc_col
    let status_col := if default_status.isNone then _find_status_column df else none
    df.rows.filterMap (fun r =>
      let raw_rfc := pyUpper (pyStrip (cellStr (rowCell df r rfc_col)))
      if rfcFullmatch raw_rfc then
        let razon :=
          match razon_col with
          | some rc =>
            match rowCell df r rc with
            | some v => some (strTake (pyStrip v) 300)
            | none => none
          | none => none
        let status :=
          match status_col with
          | some sc =>
            match rowCell df r sc with
            | some v => some (pyLower (pyStrip v))
            | none => default_status
          | none => default_status
        some { source := "sat_datos_abiertos", source_url := source_url,
               dof_url := none, rfc := raw_rfc, razon_social := razon,
               article_type := article_type, status := status,
               category := if article_type == "art_69" then status else none,
               oficio_number := none, authority := "SAT", motivo := none,
               published_at := none, raw_snippet := none }
      else none)

/-! ## sat_datos_abiertos_fetcher.py: file parsing (parse_file_to_df) -/

/-- Exceptions the external parsing libraries can raise; the CSV loop
distinguishes UnicodeDecodeError (retry next encoding) from everything else
(caught by the enclosing try). -/
inductive PyErr where
  | unicodeDecodeError
  | otherError
deriving DecidableEq, Repr

/-- Behavior of the external libraries (pandas readers and zipfile) on raw
byte payloads: B is the payload type, D the dataframe type.  Each field
models one call the code makes; an .error value models that call raising. -/
structure PandasEnv (B D : Type) where
  readCsv : B → String → Except PyErr D
  readCsvSkip : B → Except PyErr D
  readXlsx : B → Except PyErr D
  readXls : B → Except PyErr D
  zipNamelist : B → Except PyErr (List (String × B))
  isPkMagic : B → Bool
  isEmpty : D → Bool
  concatPair : D → D → D

/-- The CSV branch shared by _parse_single_sheet and parse_file_to_df: try
utf-8, latin-1, cp1252 in order, continuing only on UnicodeDecodeError; then
one last read with on_bad_lines skip; any other exception is caught by the
enclosing try and yields None. -/
def csvRead {B D : Type} (env : PandasEnv B D) (data : B) : Option D :=
  match env.readCsv data "utf-8" with
  | .ok df => some df
  | .error .otherError => none
  | .error .unicodeDecodeError =>
    match env.readCsv data "latin-1" with
    | .ok df => some df
    | .error .otherError => none
    | .error .unicodeDecodeError =>
      match env.readCsv data "cp1252" with
      | .ok df => some df
      | .error .otherError => none
      | .error .unicodeDecodeError =>
        match env.readCsvSkip data with
        | .ok df => some df
        | .error _ => none

/-- Extension dispatch shared by _parse_single_sheet (on the member name)
and the flat branch of parse_file_to_df (on the URL): csv, xlsx, xls in the
order of the code; anything else parses to None. -/
def parseByExtension {B D : Type} (env : PandasEnv B D) (data : B)
    (lowerName : String) : Option D :=
  if strEndsWith lowerName ".csv" then csvRead env data
  else if strEndsWith lowerName ".xlsx" then
    match env.readXlsx data with
    | .ok df => some df
    | .error _ => none
  else if strEndsWith lowerName ".xls" then
    match env.readXls data with
    | .ok df => some df
    | .error _ => none
  else none

/-- sat_datos_abiertos_fetcher._parse_single_sheet. -/
def _parse_single_sheet {B D : Type} (env : PandasEnv B D) (data : B)
    (name : String) : Option D :=
  parseByExtension env data (pyLower name)

/-- The spreadsheet/text member extensions expanded from a ZIP. -/
def spreadsheetExt (lowerName : String) : Bool :=
  strEndsWith lowerName ".xlsx" || strEndsWith lowerName ".xls" ||
    strEndsWith lowerName ".csv"

/-- sat_datos_abiertos_fetcher.parse_file_to_df: ZIP by URL suffix or magic
bytes — every member with a spreadsheet extension is parsed, members that
parse to None or to an empty table are skipped, survivors are concatenated,
no survivor yields None, and a failure opening the archive yields None;
otherwise the flat extension dispatch on the URL. -/
def parse_file_to_df {B D : Type} (env : PandasEnv B D) (data : B)
    (url : String) : Option D :=
  if strEndsWith (pyLower url) ".zip" || env.isPkMagic data then
    match env.zipNamelist data with
    | .error _ => none
    | .ok members =>
      match members.filterMap (fun m =>
        if spreadsheetExt (pyLower m.1) then
          match _parse_single_sheet env m.2 m.1 with
          | some df => if env.isEmpty df then none else some df
          | none => none
        else none) with
      | [] => none
      | d :: rest => some (rest.foldl env.concatPair d)
  else
    parseByExtension env data (pyLower url)

/-- A concrete external-library behavior for the C7 witness: payload 0 is an
archive holding a parseable CSV member (payload 1) and a corrupt XLSX member
(payload 2). -/
def c7WitnessEnv : PandasEnv Nat (List String) where
  readCsv := fun b _enc => if b == 1 then .ok ["CAL080328S18"] else .error .otherError
  readCsvSkip := fun _ => .error .otherError
  readXlsx := fun _ => .error .otherError
  readXls := fun _ => .error .otherError
  zipNamelist := fun b =>
    if b == 0 then .ok [("lista.csv", 1), ("corrupt.xlsx", 2)] else .error .otherError
  isPkMagic := fun _ => false
  isEmpty := fun d => d.isEmpty
  concatPair := fun a b => a ++ b

/-! ## data/db/models.py and ingestion_job.py: the PublicNotice store -/

/-- A public_notices row (data/db/models.py).  Timestamps are naturals. -/
structure PublicNotice where
  source : String
  source_url : String
  dof_url : Option String
  rfc : Option String
  razon_social : Option String
  article_type : String
  status : Option String
  category : Option String
  oficio_number : Option String
  authority : Option String
  motivo : Option String
  published_at : Option Nat
  indexed_at : Nat
  last_seen_at : Nat
  raw_snippet : Option String
deriving DecidableEq, Repr

/-- A notice dict as produced by the fetchers and consumed by
ingestion_job._replace_source (no timestamps: those are stamped at insert). -/
structure InsertNotice where
  source : String
  source_url : String
  dof_url : Option String
  rfc : Option String
  razon_social : Option String
  article_type : String
  status : Option String
  category : Option String
  oficio_number : Option String
  authority : Option String
  motivo : Option String
  published_at : Option Nat
  raw_snippet : Option String
deriving DecidableEq, Repr

/-- The PublicNotice row ingestion_job adds for one notice dict: every field
is copied from the dict (including its own source key) and indexed_at /
last_seen_at are stamped with the operation time. -/
def insertRow (now : Nat) (n : InsertNotice) : PublicNotice :=
  { source := n.source, source_url := n.source_url, dof_url := n.dof_url,
    rfc := n.rfc, razon_social := n.razon_social,
    article_type := n.article_type, status := n.status,
    category := n.category, oficio_number := n.oficio_number,
    authority := n.authority, motivo := n.motivo,
    published_at := n.published_at, indexed_at := now, last_seen_at := now,
    raw_snippet := n.raw_snippet }

/-- ingestion_job._replace_source: delete every row of the given source,
then insert the batch (the batch-0 treatment by run_ingestion of the
sat_datos_abiertos source is the same delete-then-insert shape). -/
def _replace_source (db : List PublicNotice) (source : String)
    (notices : List InsertNotice) (now : Nat) : List PublicNotice :=
  db.filter (fun r => !(r.source == source)) ++ notices.map (insertRow now)

/-- Query the store for the rows of one source. -/
def queryBySource (db : List PublicNotice) (s : String) : List PublicNotice :=
  db.filter (fun r => r.source == s)

/-! ## data/sources/sweep_job.py: screening and the watchlist sweep -/

/-- SQL ILIKE with wildcards on both sides: case-insensitive containment. -/
def containsCI (hay pat : String) : Bool :=
  strContains (pyLower hay) (pyLower pat)

/-- Insert keeping larger indexed_at first (stable). -/
def insertByIndexedDesc (r : PublicNotice) : List PublicNotice → List PublicNotice
  | [] => [r]
  | x :: xs =>
    if x.indexed_at < r.indexed_at then r :: x :: xs else x :: insertByIndexedDesc r xs

/-- order_by(PublicNotice.indexed_at.desc()). -/
def sortByIndexedDesc (l : List PublicNotice) : List PublicNotice :=
  l.foldr insertByIndexedDesc []

/-- Python `a or b or ""` over two optional strings (an empty string is
falsy, like None). -/
def optStr : Option String → String
  | some w => w
  | none => ""

def pyOr2 (a b : Option String) : String :=
  match a with
  | some v => if v == "" then optStr b else v
  | none => optStr b

/-- sweep_job._name_filter: the razon_social ILIKE fallback query for one
article type; None when no usable name was supplied. -/
def _name_filter (store : List PublicNotice) (razon_social : Option String)
    (article_type : String) : Option (List PublicNotice) :=
  match razon_social with
  | none => none
  | some z =>
    if pyStrip z == "" then none
    else
      some (sortByIndexedDesc (store.filter (fun r =>
        (match r.razon_social with
         | some rz => containsCI rz (pyStrip z)
         | none => false) && r.article_type == article_type)))

/-- Art69BStatus(raw): the enum constructor, with the
except-ValueError fallback to PRESUNTO. -/
def parseArt69BStatus (raw : String) : Art69BStatus :=
  if raw == "presunto" then .PRESUNTO
  else if raw == "desvirtuado" then .DESVIRTUADO
  else if raw == "definitivo" then .DEFINITIVO
  else if raw == "sentencia_favorable" then .SENTENCIA_FAVORABLE
  else if raw == "not_found" then .NOT_FOUND
  else .PRESUNTO

/-- The findings dict returned by _screen_rfc_against_notices. -/
structure ScreenResult where
  risk_score : Nat
  risk_level : RiskLevel
  art_69b_status : Option String
  art_69_categories : Option (List String)
  art_69_bis_found : Bool
  art_49_bis_found : Bool
deriving DecidableEq, Repr

/-- sweep_job._screen_rfc_against_notices: query PublicNotice for all four
article types (RFC first, name fallback), resolve the 69-B status, the
deduplicated Art. 69 category strings, and the two boolean flags, then call
calculate_risk_score.  The risk_findings dict built at sweep_job.py:149-153
carries only art_69b_status, art_69_categories and cert_status=None: neither
art_69_bis_found nor art_49_bis_found is passed, so calculate_risk_score
reads its art_49_bis_found key as a missing (falsy) key, modelled false
here. -/
def _screen_rfc_against_notices (store : List PublicNotice) (rfc : String)
    (razon_social : Option String) : ScreenResult :=
  let rfcU := pyUpper (pyStrip rfc)
  -- Art. 69-B: RFC query ordered by indexed_at desc, limit 1; name fallback
  let row69b : Option PublicNotice :=
    match (sortByIndexedDesc (store.filter (fun r =>
        r.rfc == some rfcU && r.article_type == "art_69b"))).head? with
    | some r => some r
    | none =>
      match _name_filter store razon_social "art_69b" with
      | some rs => rs.head?
      | none => none
  let art_69b_status : Art69BStatus :=
    match row69b with
    | none => .NOT_FOUND
    | some r =>
      let raw := pyLower (pyStrip (optStr r.status))
      if raw == "" then .PRESUNTO else parseArt69BStatus raw
  -- Art. 69: RFC query (no ordering), name fallback when empty
  let rows69 : List PublicNotice :=
    let byRfc := store.filter (fun r =>
      r.rfc == some rfcU && r.article_type == "art_69")
    if byRfc.isEmpty then
      match _name_filter store razon_social "art_69" with
      | some rs => rs
      | none => []
    else byRfc
  let art_69_cats : List String :=
    rows69.foldl (fun acc r =>
      let cat_raw := pyLower (pyStrip (pyOr2 r.category r.status))
      if !(cat_raw == "") && !(acc.contains cat_raw) then acc ++ [cat_raw] else acc) []
  -- Art. 69-B Bis presence (limit 1), name fallback
  let art_69_bis_found : Bool :=
    if !(store.filter (fun r =>
        r.rfc == some rfcU && r.article_type == "art_69_bis")).isEmpty then true
    else
      match _name_filter store razon_social "art_69_bis" with
      | some rs => !rs.isEmpty
      | none => false
  -- Art. 49 BIS presence (limit 1), name fallback
  let art_49_bis_found : Bool :=
    if !(store.filter (fun r =>
        r.rfc == some rfcU && r.article_type == "art_49_bis")).isEmpty then true
    else
      match _name_filter store razon_social "art_49_bis" with
      | some rs => !rs.isEmpty
      | none => false
  -- _CAT_MAP resolution (csd_sin_efectos has no entry)
  let art_69_enums : List Art69Category :=
    art_69_cats.filterMap (fun c =>
      if c == "credito_firme" then some .CREDITO_FIRME
      else if c == "no_localizado" then some .NO_LOCALIZADO
      else if c == "credito_cancelado" then some .CREDITO_CANCELADO
      else if c == "sentencia_condenatoria" then some .SENTENCIA_CONDENATORIA
      else none)
  let rs := calculate_risk_score
    { art_69b_status := some art_69b_status, art_49_bis_found := false,
      art_69_categories := art_69_enums, cert_status := none }
  { risk_score := rs.1, risk_level := rs.2,
    art_69b_status :=
      if art_69b_status ≠ Art69BStatus.NOT_FOUND then
        some (art69bStatusValue art_69b_status)
      else none,
    art_69_categories := if art_69_cats.isEmpty then none else some art_69_cats,
    art_69_bis_found := art_69_bis_found,
    art_49_bis_found := art_49_bis_found }

/-- A watchlist_companies row: the key pair plus the compliance fields the
sweep writes. -/
structure WatchlistCompany where
  rfc : String
  razon_social : String
  risk_level : Option String
  risk_score : Option Nat
  art_69b_status : Option String
  art_69_categories : Option (List String)
  art_69_bis_found : Bool
  art_49_bis_found : Bool
  last_screened_at : Option Nat
deriving DecidableEq, Repr

/-- The field overwrite _update_companies performs on one row. -/
def applyFindings (c : WatchlistCompany) (f : ScreenResult) (now : Nat) :
    WatchlistCompany :=
  { c with risk_score := some f.risk_score,
           risk_level := some (riskLevelValue f.risk_level),
           art_69b_status := f.art_69b_status,
           art_69_categories := f.art_69_categories,
           art_69_bis_found := f.art_69_bis_found,
           art_49_bis_found := f.art_49_bis_found,
           last_screened_at := some now }

/-- sweep_job._update_companies: overwrite every row of the RFC and count the
rows whose previous risk_level differs from the new one. -/
def _update_companies (wl : List WatchlistCompany) (rfc : String)
    (f : ScreenResult) (now : Nat) : List WatchlistCompany × Nat :=
  (wl.map (fun c => if c.rfc == rfc then applyFindings c f now else c),
   (wl.filter (fun c =>
     c.rfc == rfc && !(c.risk_level == some (riskLevelValue f.risk_level)))).length)

/-- The distinct (rfc, razon_social) pairs, in first-occurrence order,
keeping only truthy (non-empty) RFCs — sweep_job.py:36-39. -/
def distinctPairs (wl : List WatchlistCompany) : List (String × String) :=
  (wl.foldl (fun acc c =>
      if (c.rfc, c.razon_social) ∈ acc then acc else acc ++ [(c.rfc, c.razon_social)])
    []).filter (fun p => !(p.1 == ""))

/-- sweep_job.sweep_watchlist_companies: screen every distinct pair against
the store and update all rows sharing the RFC, accumulating the number of
changed rows. -/
def sweep_watchlist_companies (store : List PublicNotice)
    (wl : List WatchlistCompany) (now : Nat) : List WatchlistCompany × Nat :=
  (distinctPairs wl).foldl
    (fun st p =>
      let f := _screen_rfc_against_notices store p.1 (some p.2)
      let u := _update_companies st.1 p.1 f now
      (u.1, st.2 + u.2))
    (wl, 0)

/-- Store fixture for C3: one evidence record of article type art_49_bis for
the tracked RFC, and nothing else. -/
def c3Store49 : List PublicNotice :=
  [{ source := "dof", source_url := "u", dof_url := none,
     rfc := some "CAL080328S18", razon_social := none,
     article_type := "art_49_bis", status := none, category := none,
     oficio_number := none, authority := none, motivo := none,
     published_at := none, indexed_at := 1, last_seen_at := 1,
     raw_snippet := none }]

/-- Store fixture for C3: one evidence record of article type art_69_bis. -/
def c3Store69bis : List PublicNotice :=
  [{ source := "dof", source_url := "u", dof_url := none,
     rfc := some "CAL080328S18", razon_social := none,
     article_type := "art_69_bis", status := none, category := none,
     oficio_number := none, authority := none, motivo := none,
     published_at := none, indexed_at := 1, last_seen_at := 1,
     raw_snippet := none }]

/-! ## C9 machinery: rowwise characterization of the sweep fold -/

/-- One iteration of the sweep loop over a (rfc, razon_social) pair. -/
def sweepStep (store : List PublicNotice) (now : Nat)
    (st : List WatchlistCompany × Nat) (p : String × String) :
    List WatchlistCompany × Nat :=
  let f := _screen_rfc_against_notices store p.1 (some p.2)
  let u := _update_companies st.1 p.1 f now
  (u.1, st.2 + u.2)

/-- The effect of the update for one pair on a single row. -/
def stepPair (store : List PublicNotice) (now : Nat)
    (c : WatchlistCompany) (p : String × String) : WatchlistCompany :=
  if c.rfc == p.1 then
    applyFindings c (_screen_rfc_against_notices store p.1 (some p.2)) now
  else c

/-- The effect of the whole pair sequence on a single row. -/
def stepAll (store : List PublicNotice) (now : Nat)
    (pairs : List (String × String)) (c : WatchlistCompany) : WatchlistCompany :=
  pairs.foldl (stepPair store now) c

/-- The fields claim C9 compares (everything the sweep writes except
last_screened_at). -/
def riskFields (c : WatchlistCompany) :
    Option Nat × Option String × Option String × Option (List String) × Bool × Bool :=
  (c.risk_score, c.risk_level, c.art_69b_status, c.art_69_categories,
   c.art_69_bis_found, c.art_49_bis_found)

/-- One step of the distinct-pair accumulation (first occurrence kept). -/
def pairAcc (acc : List (String × String)) (c : WatchlistCompany) :
    List (String × String) :=
  if (c.rfc, c.razon_social) ∈ acc then acc else acc ++ [(c.rfc, c.razon_social)]

/-- Store fixture for the C9 counterexample: one art_69b record with no RFC
and entity name ALPHA CORP, reachable only through the name fallback. -/
def c9Store : List PublicNotice :=
  [{ source := "dof", source_url := "u", dof_url := none, rfc := none,
     razon_social := some "ALPHA CORP", article_type := "art_69b",
     status := some "definitivo", category := none, oficio_number := none,
     authority := none, motivo := none, published_at := none,
     indexed_at := 5, last_seen_at := 5, raw_snippet := none }]

/-- Watchlist fixture for the C9 counterexample: one rfc tracked under two
distinct names; the pair with name ALPHA resolves HIGH via the fallback,
the pair with name BETA resolves CLEAR. -/
def c9Watchlist : List WatchlistCompany :=
  [{ rfc := "XAXX010101000", razon_social := "ALPHA", risk_level := none,
     risk_score := none, art_69b_status := none, art_69_categories := none,
     art_69_bis_found := false, art_49_bis_found := false,
     last_screened_at := none },
   { rfc := "XAXX010101000", razon_social := "BETA", risk_level := none,
     risk_score := none, art_69b_status := none, art_69_categories := none,
     art_69_bis_found := false, art_49_bis_found := false,
     last_screened_at := none }]

/-! Helper lemmas about levelJoin and the candidate fold. -/

theorem levelJoin_clear_left (x : RiskLevel) : levelJoin .CLEAR x = x := by
  cases x <;> decide

theorem levelJoin_assoc (a b c : RiskLevel) :
    levelJoin (levelJoin a b) c = levelJoin a (levelJoin b c) := by
  cases a <;> cases b <;> cases c <;> decide

theorem prio_levelJoin (a b : RiskLevel) :
    _level_priority (levelJoin a b) = max (_level_priority a) (_level_priority b) := by
  cases a <;> cases b <;> decide

theorem foldl_levelJoin_shift (xs : List RiskLevel) (a b : RiskLevel) :
    xs.foldl levelJoin (levelJoin a b) = levelJoin a (xs.foldl levelJoin b) := by
  induction xs generalizing b with
  | nil => rfl
  | cons x xs ih =>
    simp only [List.foldl_cons, levelJoin_assoc, ih]

theorem calculate_risk_score_eq_joinAll (f : Findings) :
    calculate_risk_score f = (score_map (joinAll f), joinAll f) := by
  unfold calculate_risk_score joinAll
  cases h : candidates f with
  | nil => rfl
  | cons c rest =>
    simp only [List.foldl_cons, levelJoin_clear_left]

theorem levelJoin_clear_right (x : RiskLevel) : levelJoin x .CLEAR = x := by
  cases x <;> decide

theorem foldl_join_comp_shift {α : Type} (g : α → RiskLevel) (l : List α)
    (acc : RiskLevel) :
    l.foldl (fun a c => levelJoin a (g c)) acc
      = levelJoin acc (l.foldl (fun a c => levelJoin a (g c)) .CLEAR) := by
  induction l generalizing acc with
  | nil => simp [levelJoin_clear_right]
  | cons x xs ih =>
    simp only [List.foldl_cons]
    rw [ih (levelJoin acc (g x)), levelJoin_assoc,
      ih (levelJoin .CLEAR (g x)), levelJoin_clear_left]

theorem catCandidate_eq_table : catCandidate = categoryTableLevel := by
  funext c; cases c <;> rfl

theorem foldl_art69bCandidates (s : Option Art69BStatus) (a : RiskLevel) :
    (art69bCandidates s).foldl levelJoin a = levelJoin a (art69bTableLevel s) := by
  cases s with
  | none => exact (levelJoin_clear_right a).symm
  | some st => cases st <;> rfl

theorem foldl_flagCandidates (fl : Bool) (a : RiskLevel) :
    (if fl then [RiskLevel.HIGH] else []).foldl levelJoin a
      = levelJoin a (flagTableLevel fl) := by
  cases fl with
  | false => exact (levelJoin_clear_right a).symm
  | true => rfl

theorem foldl_certCandidates (s : Option CertificateStatus) (a : RiskLevel) :
    (certCandidates s).foldl levelJoin a = levelJoin a (certTableLevel s) := by
  cases s with
  | none => exact (levelJoin_clear_right a).symm
  | some st => cases st <;> rfl

theorem joinAll_eq_amended (f : Findings) : joinAll f = amendedTableLevel f := by
  unfold joinAll candidates amendedTableLevel
  rw [List.foldl_append, List.foldl_append, List.foldl_append, List.foldl_map,
    catCandidate_eq_table, foldl_art69bCandidates, foldl_flagCandidates,
    foldl_join_comp_shift, foldl_certCandidates]
  rw [foldl_join_comp_shift]
  simp only [levelJoin_clear_left, catsJoin]

/-- C1, counterexample: findings holding only a 49-Bis flag, a desvirtuado
class-B status and a credito_cancelado category.  calculate_risk_score
returns (80, HIGH) while the table literally listed in the claim contributes
no level for any of the three findings and so predicts (0, CLEAR): the claim
as stated is false on this input. -/
theorem c1_claim_table_counterexample :
    calculate_risk_score
        ⟨some .DESVIRTUADO, true, [.CREDITO_CANCELADO], none⟩ = (80, .HIGH) ∧
    claimTableResult
        ⟨some .DESVIRTUADO, true, [.CREDITO_CANCELADO], none⟩ = (0, .CLEAR) ∧
    calculate_risk_score ⟨some .DESVIRTUADO, true, [.CREDITO_CANCELADO], none⟩ ≠
      claimTableResult ⟨some .DESVIRTUADO, true, [.CREDITO_CANCELADO], none⟩ := by
  refine ⟨by decide, by decide, by decide⟩

/-- C1 (amended): for every findings input, calculate_risk_score returns the
highest-severity level among the per-finding levels of the fixed table
(sentencia_condenatoria maps to critical; a definitivo or presunto class-B
status and the 49-bis flag map to high; no_localizado maps to medium; a
credito_firme, csd_sin_efectos or credito_cancelado category, a desvirtuado
or sentencia_favorable class-B status, and a revoked or expired certificate
status map to low; if no finding contributes a level the result is clear),
and the returned integer score equals exactly the fixed lookup of that level
(clear=0, low=25, medium=50, high=80, critical=100). -/
theorem c1_fixed_severity_table (f : Findings) :
    calculate_risk_score f = (score_map (amendedTableLevel f), amendedTableLevel f) := by
  rw [calculate_risk_score_eq_joinAll, joinAll_eq_amended]

/-! ## Monotonicity of severity resolution -/

theorem prio_acc_le_foldl (l : List Art69Category) (acc : RiskLevel) :
    _level_priority acc
      ≤ _level_priority (l.foldl (fun a c => levelJoin a (categoryTableLevel c)) acc) := by
  induction l generalizing acc with
  | nil => exact Nat.le_refl _
  | cons x xs ih =>
    refine Nat.le_trans ?_ (ih (levelJoin acc (categoryTableLevel x)))
    rw [prio_levelJoin]
    exact Nat.le_max_left _ _

theorem prio_mem_le_catsJoin {c : Art69Category} {l : List Art69Category}
    (h : c ∈ l) : _level_priority (categoryTableLevel c) ≤ _level_priority (catsJoin l) := by
  induction l with
  | nil => cases h
  | cons x xs ih =>
    unfold catsJoin
    rw [List.foldl_cons, foldl_join_comp_shift, prio_levelJoin, prio_levelJoin]
    rcases List.mem_cons.mp h with h | h
    · subst h
      exact Nat.le_trans (Nat.le_max_right _ _) (Nat.le_max_left _ _)
    · exact Nat.le_trans (ih h) (Nat.le_max_right _ _)

theorem prio_foldl_le (l : List Art69Category) (acc : RiskLevel) (n : Nat)
    (ha : _level_priority acc ≤ n)
    (h : ∀ c, c ∈ l → _level_priority (categoryTableLevel c) ≤ n) :
    _level_priority (l.foldl (fun a c => levelJoin a (categoryTableLevel c)) acc) ≤ n := by
  induction l generalizing acc with
  | nil => exact ha
  | cons x xs ih =>
    rw [List.foldl_cons]
    refine ih (levelJoin acc (categoryTableLevel x)) ?_ (fun c hc => h c (List.mem_cons_of_mem x hc))
    rw [prio_levelJoin]
    exact Nat.max_le.mpr ⟨ha, h x (List.mem_cons_self x xs)⟩

theorem prio_catsJoin_mono {l₁ l₂ : List Art69Category}
    (h : ∀ c, c ∈ l₁ → c ∈ l₂) :
    _level_priority (catsJoin l₁) ≤ _level_priority (catsJoin l₂) := by
  refine prio_foldl_le l₁ .CLEAR _ (Nat.zero_le _) (fun c hc => ?_)
  exact prio_mem_le_catsJoin (h c hc)

/-- C10: severity resolution is monotonic.  Enlarging a findings input —
keeping each present finding and possibly adding new ones (turning an absent
class-B status, certificate status or 49-bis flag into a present one, or
adding Art. 69 categories) — can only raise or hold the level computed by
calculate_risk_score in the order clear < low < medium < high < critical,
never lower it. -/
theorem c10_severity_monotonic (f₁ f₂ : Findings)
    (hb : f₁.art_69b_status = f₂.art_69b_status ∨ f₁.art_69b_status = none)
    (hf : f₁.art_49_bis_found = true → f₂.art_49_bis_found = true)
    (hc : ∀ c, c ∈ f₁.art_69_categories → c ∈ f₂.art_69_categories)
    (hcert : f₁.cert_status = f₂.cert_status ∨ f₁.cert_status = none) :
    _level_priority (calculate_risk_score f₁).2
      ≤ _level_priority (calculate_risk_score f₂).2 := by
  rw [calculate_risk_score_eq_joinAll, calculate_risk_score_eq_joinAll]
  simp only
  rw [joinAll_eq_amended, joinAll_eq_amended]
  unfold amendedTableLevel
  rw [prio_levelJoin, prio_levelJoin, prio_levelJoin,
    prio_levelJoin, prio_levelJoin, prio_levelJoin]
  refine max_le_max (max_le_max (max_le_max ?_ ?_) ?_) ?_
  · rcases hb with h | h
    · rw [h]
    · rw [h]
      exact Nat.zero_le _
  · cases h1 : f₁.art_49_bis_found with
    | false => exact Nat.zero_le _
    | true => rw [hf h1]
  · exact prio_catsJoin_mono hc
  · rcases hcert with h | h
    · rw [h]
    · rw [h]
      exact Nat.zero_le _

/-- Witness for C10 at a concrete pair of findings inputs: the empty findings
against the same findings enlarged by a no_localizado category. -/
theorem c10_severity_monotonic_witness :
    _level_priority (calculate_risk_score ⟨none, false, [], none⟩).2
      ≤ _level_priority (calculate_risk_score ⟨none, false, [.NO_LOCALIZADO], none⟩).2 :=
  c10_severity_monotonic ⟨none, false, [], none⟩ ⟨none, false, [.NO_LOCALIZADO], none⟩
    (Or.inr rfl) (fun h => absurd h (by decide))
    (fun c hc => absurd hc (List.not_mem_nil c)) (Or.inr rfl)

/-- C2: sweep_job.py imports the name get_risk_level from
app.config.risk_rules, that module binds no such name, so importing the
sweep module — and therefore the scheduler module — raises ImportError and
sweep_watchlist_companies can never run. -/
theorem c2_sweep_import_error :
    sweep_job_risk_rules_imports.contains "get_risk_level" = true ∧
    risk_rules_module_names.contains "get_risk_level" = false ∧
    import_sweep_job = .error "ImportError" ∧
    import_scheduler = .error "ImportError" ∧
    resweep_attempt = .error "ImportError" := by
  refine ⟨by decide, by decide, rfl, rfl, rfl⟩

/-- C5, divergence: for every batch index, run_ingestion passes the keyword
arguments max_rows_per_file and start_file_offset to
SATDatosAbiertosFetcher.run, whose signature accepts only max_files, so the
call raises TypeError and run_ingestion never completes normally — the
row-per-file cap and the file offset i * 15 are computed but never honored
by the fetcher. -/
theorem c5_run_ingestion_type_error (i : Nat) :
    ((run_ingestion_sat_kwargs i).map Prod.fst).contains "max_rows_per_file" = true ∧
    sat_run_accepted_params.contains "max_rows_per_file" = false ∧
    python_kwargs_ok sat_run_accepted_params (run_ingestion_sat_kwargs i) = false ∧
    run_ingestion_outcome i = .error "TypeError" := by
  exact ⟨rfl, rfl, rfl, rfl⟩

/-- C6: the notice classifier is a pure total function (in this embedding a
function, so exactly one (category, status) pair per input); the rule lists
are scanned in their fixed order and the first matching keyword wins, so an
input containing the specific keyword 69-b bis is classified art_69_bis by
the first rule even though it necessarily also contains the general sibling
69-b, and a link text containing sentencia favorable (and none of the three
keywords ordered before it) is classified by the specific rule instead of
the later general sentencia rule; when no rule matches, the result is the
default category art_69b with no status from the category rules. -/
theorem c6_classifier_first_match :
    (∀ title : String, ∃ p : String × Option String, _classify_notice title = p) ∧
    (∀ title : String, strContains (pyLower title) "69-b bis" = true →
      (_classify_notice title).1 = "art_69_bis") ∧
    (∀ text : String,
      strContains (pyStrip (pyLower text)) "sentencia favorable" = true →
      strContains (pyStrip (pyLower text)) "definitivo" = false →
      strContains (pyStrip (pyLower text)) "presunto" = false →
      strContains (pyStrip (pyLower text)) "desvirtuado" = false →
      _classify_link text = ("art_69b", some "sentencia_favorable")) ∧
    (∀ title : String,
      (_ARTICLE_RULES.all fun r => !strContains (pyLower title) r.1) = true →
      (_STATUS_HINTS.all fun r => !strContains (pyLower title) r.1) = true →
      _classify_notice title = ("art_69b", none)) ∧
    (∀ text : String,
      (FILE_CLASSIFICATION.all fun r => !strContains (pyStrip (pyLower text)) r.1) = true →
      _classify_link text = ("art_69b", none)) := by
  refine ⟨fun title => ⟨_classify_notice title, rfl⟩, ?_, ?_, ?_, ?_⟩
  · intro title h
    unfold _classify_notice _ARTICLE_RULES
    simp only [List.find?, h]
  · intro text h1 h2 h3 h4
    unfold _classify_link FILE_CLASSIFICATION
    simp only [List.find?, h1, h2, h3, h4]
  · intro title hart hhint
    have hn1 : _ARTICLE_RULES.find? (fun r => strContains (pyLower title) r.1) = none := by
      rw [List.find?_eq_none]
      intro x hx
      have := (List.all_eq_true.mp hart) x hx
      simpa using this
    have hn2 : findStatusHint (pyLower title) = none := by
      have h0 : _STATUS_HINTS.find? (fun r => strContains (pyLower title) r.1) = none := by
        rw [List.find?_eq_none]
        intro x hx
        have := (List.all_eq_true.mp hhint) x hx
        simpa using this
      unfold findStatusHint
      rw [h0]
      rfl
    unfold _classify_notice
    rw [hn1, hn2]
  · intro text hall
    have hn : FILE_CLASSIFICATION.find?
        (fun r => strContains (pyStrip (pyLower text)) r.1) = none := by
      rw [List.find?_eq_none]
      intro x hx
      have := (List.all_eq_true.mp hall) x hx
      simpa using this
    unfold _classify_link
    rw [hn]

/-- Witness for C6 at concrete inputs: a title containing 69-b bis, a link
text containing sentencia favorable, and inputs matching no rule at all. -/
theorem c6_classifier_first_match_witness :
    (_classify_notice "Listado 69-B BIS de la SHCP").1 = "art_69_bis" ∧
    _classify_link " Sentencia Favorable enero " = ("art_69b", some "sentencia_favorable") ∧
    _classify_notice "acuerdo general" = ("art_69b", none) ∧
    _classify_link "acuerdo general" = ("art_69b", none) :=
  ⟨c6_classifier_first_match.2.1 "Listado 69-B BIS de la SHCP" (by decide),
   c6_classifier_first_match.2.2.1 " Sentencia Favorable enero "
     (by decide) (by decide) (by decide) (by decide),
   c6_classifier_first_match.2.2.2.1 "acuerdo general" (by decide) (by decide),
   c6_classifier_first_match.2.2.2.2 "acuerdo general" (by decide)⟩

/-- C8: column detection is two-tier.  When the normalized name of some column is
a known RFC header, the selected column is the first such column — selection
is by name, independent of the position of the column.  When no column name
matches, any column the fallback selects satisfies the sampling criterion
(at least 40 percent of up to 20 sampled non-empty values match the RFC
pattern, with a minimum of one match).  When neither tier selects a column,
extraction returns zero rows. -/
theorem c8_two_tier_column_detection :
    (∀ df : DataFrame, ∀ c : String, c ∈ df.cols → isRfcHeaderName c = true →
      ∃ c2, _find_rfc_column df = some c2 ∧ isRfcHeaderName c2 = true) ∧
    (∀ df : DataFrame, ∀ c : String, df.cols.find? isRfcHeaderName = some c →
      _find_rfc_column df = some c) ∧
    (∀ df : DataFrame, ∀ c : String,
      (∀ c2, c2 ∈ df.cols → isRfcHeaderName c2 = false) →
      _find_rfc_column df = some c → tier2Qualifies (colValues df c) = true) ∧
    (∀ (df : DataFrame) (u a : String) (s : Option String),
      _find_rfc_column df = none → extract_notices_from_df df u a s = []) := by
  refine ⟨?_, ?_, ?_, ?_⟩
  · intro df c hc hname
    have hsome : (df.cols.find? isRfcHeaderName).isSome := by
      rw [List.find?_isSome]
      exact ⟨c, hc, hname⟩
    rcases Option.isSome_iff_exists.mp hsome with ⟨c2, hfind⟩
    refine ⟨c2, ?_, List.find?_some hfind⟩
    unfold _find_rfc_column
    rw [hfind]
  · intro df c hfind
    unfold _find_rfc_column
    rw [hfind]
  · intro df c hnone hsel
    have h1 : df.cols.find? isRfcHeaderName = none := by
      rw [List.find?_eq_none]
      intro x hx
      simp [hnone x hx]
    have hsel2 : df.cols.find? (fun c => tier2Qualifies (colValues df c)) = some c := by
      unfold _find_rfc_column at hsel
      rw [h1] at hsel
      exact hsel
    have h3 := List.find?_some hsel2
    exact h3
  · intro df u a s h
    unfold extract_notices_from_df
    rw [h]

/-- Witness for C8 at the scenario-4 table: header RFC and Razón Social in
reversed column order; tier 1 still selects the RFC column by name. -/
theorem c8_two_tier_column_detection_witness :
    _find_rfc_column
      ⟨["Razón Social", "RFC"], [[some "ACME SA DE CV", some "CAL080328S18"]]⟩
      = some "RFC" :=
  c8_two_tier_column_detection.2.1
    ⟨["Razón Social", "RFC"], [[some "ACME SA DE CV", some "CAL080328S18"]]⟩
    "RFC" (by decide)

/-- C7: the tabular extractor never raises — for every library behavior,
payload, and filename/URL hint it returns either a table or the empty result
None — and for a ZIP archive containing one parseable non-empty spreadsheet
member and one corrupt member (whose parse fails), the result is exactly the
table of the parseable member: the corrupt member is skipped, never fatal. -/
theorem c7_extractor_never_fatal :
    (∀ (B D : Type) (env : PandasEnv B D) (data : B) (url : String),
      parse_file_to_df env data url = none ∨
        ∃ d, parse_file_to_df env data url = some d) ∧
    (∀ (B D : Type) (env : PandasEnv B D) (data : B)
       (url goodName : String) (goodData : B) (badName : String) (badData : B) (d : D),
      strEndsWith (pyLower url) ".zip" = true →
      env.zipNamelist data = .ok [(goodName, goodData), (badName, badData)] →
      spreadsheetExt (pyLower goodName) = true →
      _parse_single_sheet env goodData goodName = some d →
      env.isEmpty d = false →
      spreadsheetExt (pyLower badName) = true →
      _parse_single_sheet env badData badName = none →
      parse_file_to_df env data url = some d) := by
  constructor
  · intro B D env data url
    cases h : parse_file_to_df env data url with
    | none => exact Or.inl rfl
    | some d => exact Or.inr ⟨d, rfl⟩
  · intro B D env data url goodName goodData badName badData d
    intro hzip hmem hgext hgparse hgfull hbext hbparse
    unfold parse_file_to_df
    rw [hzip, Bool.true_or, if_pos rfl, hmem]
    simp only [List.filterMap, hgext, hgparse, hgfull, hbext, hbparse, if_true]
    rfl

/-- Witness for C7: under c7WitnessEnv the archive parse returns exactly the
rows of the valid member. -/
theorem c7_extractor_never_fatal_witness :
    parse_file_to_df c7WitnessEnv 0 "descarga.zip" = some ["CAL080328S18"] :=
  c7_extractor_never_fatal.2 Nat (List String) c7WitnessEnv 0 "descarga.zip"
    "lista.csv" 1 "corrupt.xlsx" 2 ["CAL080328S18"]
    (by decide) rfl (by decide) rfl rfl (by decide) rfl

theorem filter_not_source_then_source (db : List PublicNotice) (s : String) :
    (db.filter (fun r => !(r.source == s))).filter (fun r => r.source == s) = [] := by
  induction db with
  | nil => rfl
  | cons r rest ih =>
    by_cases h : r.source = s <;> simp [List.filter_cons, h, ih]

theorem filter_other_source (db : List PublicNotice) (s s2 : String) (hne : s2 ≠ s) :
    (db.filter (fun r => !(r.source == s))).filter (fun r => r.source == s2)
      = db.filter (fun r => r.source == s2) := by
  induction db with
  | nil => rfl
  | cons r rest ih =>
    by_cases h : r.source = s
    · have h2 : (r.source == s2) = false := by
        rw [h]
        exact beq_eq_false_iff_ne.mpr (Ne.symm hne)
      simp [List.filter_cons, h, h2, ih, Ne.symm hne]
    · simp [List.filter_cons, h, ih]

/-- C4: replacing the records of a source (delete-then-insert) leaves the store
holding, for that source, exactly the new batch stamped with the operation
time; leaves the records of every other source unchanged; and retains nothing of
the prior batch even when the new batch is empty.  The hypothesis reflects
that every notice dict a fetcher hands to _replace_source carries that
own source key of that source (the inserted row copies the key of the dict). -/
theorem c4_replace_source_exact (db : List PublicNotice) (s : String)
    (batch : List InsertNotice) (now : Nat)
    (hs : ∀ n, n ∈ batch → n.source = s) :
    queryBySource (_replace_source db s batch now) s = batch.map (insertRow now) ∧
    (∀ s2, s2 ≠ s →
      queryBySource (_replace_source db s batch now) s2 = queryBySource db s2) ∧
    (∀ r, r ∈ batch.map (insertRow now) → r.indexed_at = now ∧ r.last_seen_at = now) ∧
    queryBySource (_replace_source db s [] now) s = [] := by
  refine ⟨?_, ?_, ?_, ?_⟩
  · unfold queryBySource _replace_source
    rw [List.filter_append, filter_not_source_then_source, List.nil_append]
    apply List.filter_eq_self.mpr
    intro r hr
    rcases List.mem_map.mp hr with ⟨n, hn, rfl⟩
    simp [insertRow, hs n hn]
  · intro s2 hne
    unfold queryBySource _replace_source
    rw [List.filter_append, filter_other_source db s s2 hne]
    have hmap : (batch.map (insertRow now)).filter (fun r => r.source == s2) = [] := by
      apply List.filter_eq_nil_iff.mpr
      intro r hr
      rcases List.mem_map.mp hr with ⟨n, hn, rfl⟩
      simp [insertRow, hs n hn, Ne.symm hne]
    rw [hmap, List.append_nil]
  · intro r hr
    rcases List.mem_map.mp hr with ⟨n, _, rfl⟩
    exact ⟨rfl, rfl⟩
  · unfold queryBySource _replace_source
    rw [List.map_nil, List.append_nil, filter_not_source_then_source]

/-- Witness for C4 at a concrete store: a dof row and a sat row; re-ingesting
the dof source with an empty batch clears it and leaves the sat row alone
(spec scenario 3). -/
theorem c4_replace_source_exact_witness :
    queryBySource
      (_replace_source
        [{ source := "dof", source_url := "u1", dof_url := none, rfc := some "CAL080328S18",
           razon_social := none, article_type := "art_69b", status := some "presunto",
           category := none, oficio_number := none, authority := some "SAT/SHCP",
           motivo := none, published_at := none, indexed_at := 1, last_seen_at := 1,
           raw_snippet := none },
         { source := "sat_datos_abiertos", source_url := "u2", dof_url := none,
           rfc := some "XAXX010101000", razon_social := none, article_type := "art_69",
           status := some "credito_firme", category := some "credito_firme",
           oficio_number := none, authority := some "SAT", motivo := none,
           published_at := none, indexed_at := 1, last_seen_at := 1,
           raw_snippet := none }]
        "dof" [] 7) "dof" = [] :=
  (c4_replace_source_exact _ "dof" [] 7
    (fun n hn => absurd hn (List.not_mem_nil n))).1

/-- C3, divergence at the failing input: with a single art_49_bis (resp.
art_69_bis) evidence record for the identifier, the screen detects the flag
(art_49_bis_found / art_69_bis_found true in the returned findings) yet
computes and writes risk level CLEAR with score 0 — strictly below HIGH —
because the risk_findings dict passed to calculate_risk_score omits the
art_49_bis_found key and calculate_risk_score has no art_69_bis rule at all,
contradicting the severity docstring in risk_rules.py itself (49-Bis maps to HIGH).  The
final conjunct shows the full sweep writes that CLEAR level and score to the
company row. -/
theorem c3_boolean_flags_not_scored :
    (_screen_rfc_against_notices c3Store49 "CAL080328S18" none).art_49_bis_found = true ∧
    (_screen_rfc_against_notices c3Store49 "CAL080328S18" none).risk_level = .CLEAR ∧
    (_screen_rfc_against_notices c3Store49 "CAL080328S18" none).risk_score = 0 ∧
    (_screen_rfc_against_notices c3Store69bis "CAL080328S18" none).art_69_bis_found = true ∧
    (_screen_rfc_against_notices c3Store69bis "CAL080328S18" none).risk_level = .CLEAR ∧
    _level_priority .CLEAR < _level_priority .HIGH ∧
    sweep_watchlist_companies c3Store49
        [{ rfc := "CAL080328S18", razon_social := "CALIDAD SA", risk_level := none,
           risk_score := none, art_69b_status := none, art_69_categories := none,
           art_69_bis_found := false, art_49_bis_found := false,
           last_screened_at := none }] 5
      = ([{ rfc := "CAL080328S18", razon_social := "CALIDAD SA",
            risk_level := some "CLEAR", risk_score := some 0,
            art_69b_status := none, art_69_categories := none,
            art_69_bis_found := false, art_49_bis_found := true,
            last_screened_at := some 5 }], 1) := by
  refine ⟨rfl, rfl, rfl, rfl, rfl, by decide, rfl⟩

theorem sweep_eq_foldl (store : List PublicNotice) (wl : List WatchlistCompany)
    (now : Nat) :
    sweep_watchlist_companies store wl now
      = (distinctPairs wl).foldl (sweepStep store now) (wl, 0) := rfl

theorem sweepLoop_fst (store : List PublicNotice) (now : Nat)
    (pairs : List (String × String)) :
    ∀ (wl : List WatchlistCompany) (ch : Nat),
      (pairs.foldl (sweepStep store now) (wl, ch)).1
        = wl.map (stepAll store now pairs) := by
  induction pairs with
  | nil =>
    intro wl ch
    have h : wl.map (stepAll store now []) = wl.map id := rfl
    rw [h, List.map_id]
    rfl
  | cons p ps ih =>
    intro wl ch
    rw [List.foldl_cons]
    have hstep : sweepStep store now (wl, ch) p
        = (wl.map (fun c => stepPair store now c p),
           ch + (wl.filter (fun c =>
             c.rfc == p.1 && !(c.risk_level == some (riskLevelValue
               (_screen_rfc_against_notices store p.1 (some p.2)).risk_level)))).length) := rfl
    rw [hstep, ih, List.map_map]
    rfl

theorem stepPair_rfc (store : List PublicNotice) (now : Nat)
    (c : WatchlistCompany) (p : String × String) :
    (stepPair store now c p).rfc = c.rfc ∧
    (stepPair store now c p).razon_social = c.razon_social := by
  unfold stepPair
  by_cases h : (c.rfc == p.1) = true
  · rw [if_pos h]
    exact ⟨rfl, rfl⟩
  · rw [if_neg h]
    exact ⟨rfl, rfl⟩

theorem stepAll_rfc (store : List PublicNotice) (now : Nat)
    (pairs : List (String × String)) :
    ∀ c : WatchlistCompany,
      (stepAll store now pairs c).rfc = c.rfc ∧
      (stepAll store now pairs c).razon_social = c.razon_social := by
  induction pairs with
  | nil => exact fun c => ⟨rfl, rfl⟩
  | cons p ps ih =>
    intro c
    have h1 := stepPair_rfc store now c p
    have h2 := ih (stepPair store now c p)
    unfold stepAll at h2 ⊢
    rw [List.foldl_cons]
    exact ⟨h2.1.trans h1.1, h2.2.trans h1.2⟩

theorem stepAll_no_match (store : List PublicNotice) (now : Nat)
    (pairs : List (String × String)) :
    ∀ c : WatchlistCompany, (∀ p, p ∈ pairs → p.1 ≠ c.rfc) →
      stepAll store now pairs c = c := by
  induction pairs with
  | nil => exact fun c _ => rfl
  | cons p ps ih =>
    intro c h
    unfold stepAll
    rw [List.foldl_cons]
    have hp : stepPair store now c p = c := by
      unfold stepPair
      rw [if_neg]
      intro hbeq
      exact h p (List.mem_cons_self p ps) (eq_of_beq hbeq).symm
    rw [hp]
    exact ih c (fun q hq => h q (List.mem_cons_of_mem p hq))

theorem riskFields_applyFindings (c d : WatchlistCompany) (f : ScreenResult)
    (n1 n2 : Nat) :
    riskFields (applyFindings c f n1) = riskFields (applyFindings d f n2) := rfl

theorem applyFindings_rfc (c : WatchlistCompany) (f : ScreenResult) (now : Nat) :
    (applyFindings c f now).rfc = c.rfc := rfl

theorem stepAll_fields_congr (store : List PublicNotice) (n1 n2 : Nat)
    (pairs : List (String × String)) :
    ∀ (c d : WatchlistCompany), c.rfc = d.rfc →
      (∃ p, p ∈ pairs ∧ p.1 = c.rfc) →
      riskFields (stepAll store n1 pairs c) = riskFields (stepAll store n2 pairs d) := by
  induction pairs with
  | nil =>
    rintro c d _ ⟨p, hp, _⟩
    exact absurd hp (List.not_mem_nil p)
  | cons p ps ih =>
    rintro c d hrfc ⟨q, hq, hq1⟩
    unfold stepAll
    rw [List.foldl_cons, List.foldl_cons]
    by_cases h : c.rfc = p.1
    · have hc : stepPair store n1 c p
          = applyFindings c (_screen_rfc_against_notices store p.1 (some p.2)) n1 := by
        unfold stepPair
        rw [if_pos (beq_iff_eq.mpr h)]
      have hd : stepPair store n2 d p
          = applyFindings d (_screen_rfc_against_notices store p.1 (some p.2)) n2 := by
        unfold stepPair
        rw [if_pos (beq_iff_eq.mpr (hrfc ▸ h))]
      rw [hc, hd]
      by_cases hps : ∃ r, r ∈ ps ∧ r.1 = c.rfc
      · have hrfc2 : (applyFindings c (_screen_rfc_against_notices store p.1 (some p.2)) n1).rfc
            = (applyFindings d (_screen_rfc_against_notices store p.1 (some p.2)) n2).rfc := by
          rw [applyFindings_rfc, applyFindings_rfc]
          exact hrfc
        have hps2 : ∃ r, r ∈ ps ∧ r.1
            = (applyFindings c (_screen_rfc_against_notices store p.1 (some p.2)) n1).rfc := by
          rcases hps with ⟨r, hr, hr1⟩
          exact ⟨r, hr, by rw [applyFindings_rfc]; exact hr1⟩
        exact ih _ _ hrfc2 hps2
      · have hno1 : stepAll store n1 ps
            (applyFindings c (_screen_rfc_against_notices store p.1 (some p.2)) n1)
            = applyFindings c (_screen_rfc_against_notices store p.1 (some p.2)) n1 := by
          apply stepAll_no_match
          intro r hr hre
          exact hps ⟨r, hr, by rw [hre, applyFindings_rfc]⟩
        have hno2 : stepAll store n2 ps
            (applyFindings d (_screen_rfc_against_notices store p.1 (some p.2)) n2)
            = applyFindings d (_screen_rfc_against_notices store p.1 (some p.2)) n2 := by
          apply stepAll_no_match
          intro r hr hre
          refine hps ⟨r, hr, ?_⟩
          rw [hre, applyFindings_rfc]
          exact hrfc.symm
        unfold stepAll at hno1 hno2
        rw [hno1, hno2]
        exact riskFields_applyFindings c d _ n1 n2
    · have hq' : q ∈ ps := by
        rcases List.mem_cons.mp hq with rfl | hq'
        · exact absurd hq1.symm h
        · exact hq'
      have hc : stepPair store n1 c p = c := by
        unfold stepPair
        rw [if_neg]
        intro hbeq
        exact h (eq_of_beq hbeq)
      have hd : stepPair store n2 d p = d := by
        unfold stepPair
        rw [if_neg]
        intro hbeq
        exact h (hrfc.trans (eq_of_beq hbeq))
      rw [hc, hd]
      exact ih c d hrfc ⟨q, hq', hq1⟩

theorem distinctPairs_eq (wl : List WatchlistCompany) :
    distinctPairs wl = (wl.foldl pairAcc []).filter (fun p => !(p.1 == "")) := rfl

theorem mem_foldl_pairAcc (wl : List WatchlistCompany) :
    ∀ (acc : List (String × String)) (p : String × String),
      p ∈ wl.foldl pairAcc acc ↔
        p ∈ acc ∨ ∃ c, c ∈ wl ∧ (c.rfc, c.razon_social) = p := by
  induction wl with
  | nil =>
    intro acc p
    simp
  | cons c cs ih =>
    intro acc p
    rw [List.foldl_cons, ih]
    unfold pairAcc
    by_cases h : (c.rfc, c.razon_social) ∈ acc
    · rw [if_pos h]
      constructor
      · rintro (hp | ⟨c2, hc2, he⟩)
        · exact Or.inl hp
        · exact Or.inr ⟨c2, List.mem_cons_of_mem c hc2, he⟩
      · rintro (hp | ⟨c2, hc2, he⟩)
        · exact Or.inl hp
        · rcases List.mem_cons.mp hc2 with rfl | h2
          · exact Or.inl (he ▸ h)
          · exact Or.inr ⟨c2, h2, he⟩
    · rw [if_neg h]
      constructor
      · rintro (hp | ⟨c2, hc2, he⟩)
        · rcases List.mem_append.mp hp with hp1 | hp2
          · exact Or.inl hp1
          · exact Or.inr ⟨c, List.mem_cons_self c cs, (List.mem_singleton.mp hp2).symm⟩
        · exact Or.inr ⟨c2, List.mem_cons_of_mem c hc2, he⟩
      · rintro (hp | ⟨c2, hc2, he⟩)
        · exact Or.inl (List.mem_append.mpr (Or.inl hp))
        · rcases List.mem_cons.mp hc2 with rfl | h2
          · exact Or.inl (List.mem_append.mpr (Or.inr (List.mem_singleton.mpr he.symm)))
          · exact Or.inr ⟨c2, h2, he⟩

theorem nodup_foldl_pairAcc (wl : List WatchlistCompany) :
    ∀ acc : List (String × String), acc.Nodup → (wl.foldl pairAcc acc).Nodup := by
  induction wl with
  | nil => exact fun acc h => h
  | cons c cs ih =>
    intro acc h
    rw [List.foldl_cons]
    apply ih
    unfold pairAcc
    by_cases hm : (c.rfc, c.razon_social) ∈ acc
    · rw [if_pos hm]
      exact h
    · rw [if_neg hm]
      rw [List.nodup_append]
      refine ⟨h, List.nodup_singleton _, ?_⟩
      intro a ha hb
      rw [List.mem_singleton] at hb
      exact hm (hb ▸ ha)

theorem distinctPairs_nodup (wl : List WatchlistCompany) :
    (distinctPairs wl).Nodup := by
  rw [distinctPairs_eq]
  exact (nodup_foldl_pairAcc wl [] List.nodup_nil).filter _

theorem mem_distinctPairs (wl : List WatchlistCompany) (p : String × String)
    (h : p ∈ distinctPairs wl) :
    ∃ c, c ∈ wl ∧ c.rfc = p.1 ∧ c.razon_social = p.2 := by
  rw [distinctPairs_eq] at h
  have h2 := List.mem_of_mem_filter h
  rcases (mem_foldl_pairAcc wl [] p).mp h2 with hp | ⟨c, hc, he⟩
  · exact absurd hp (List.not_mem_nil p)
  · exact ⟨c, hc, congrArg Prod.fst he, congrArg Prod.snd he⟩

theorem distinctPairs_fst_nodup (wl : List WatchlistCompany)
    (hU : ∀ c1, c1 ∈ wl → ∀ c2, c2 ∈ wl → c1.rfc = c2.rfc →
      c1.razon_social = c2.razon_social) :
    ((distinctPairs wl).map Prod.fst).Nodup := by
  apply List.Nodup.map_on ?_ (distinctPairs_nodup wl)
  intro x hx y hy hxy
  obtain ⟨cx, hcx, hcx1, hcx2⟩ := mem_distinctPairs wl x hx
  obtain ⟨cy, hcy, hcy1, hcy2⟩ := mem_distinctPairs wl y hy
  have hr : cx.rfc = cy.rfc := by rw [hcx1, hcy1, hxy]
  have hz : x.2 = y.2 := by
    rw [← hcx2, ← hcy2]
    exact hU cx hcx cy hcy hr
  exact Prod.ext hxy hz

theorem distinctPairs_map (wl : List WatchlistCompany)
    (g : WatchlistCompany → WatchlistCompany)
    (hg : ∀ c, (g c).rfc = c.rfc ∧ (g c).razon_social = c.razon_social) :
    distinctPairs (wl.map g) = distinctPairs wl := by
  rw [distinctPairs_eq, distinctPairs_eq, List.foldl_map]
  have hfun : (fun (acc : List (String × String)) c => pairAcc acc (g c)) = pairAcc := by
    funext acc c
    unfold pairAcc
    rw [(hg c).1, (hg c).2]
  rw [hfun]

theorem stepAll_applied (store : List PublicNotice) (now : Nat)
    (pairs : List (String × String)) :
    (pairs.map Prod.fst).Nodup →
    ∀ p, p ∈ pairs → ∀ c : WatchlistCompany, c.rfc = p.1 →
      stepAll store now pairs c
        = applyFindings c (_screen_rfc_against_notices store p.1 (some p.2)) now := by
  induction pairs with
  | nil =>
    intro _ p hp
    exact absurd hp (List.not_mem_nil p)
  | cons q ps ih =>
    intro hnd p hp c hc
    rw [List.map_cons] at hnd
    obtain ⟨hq1, hndtail⟩ := List.nodup_cons.mp hnd
    unfold stepAll
    rw [List.foldl_cons]
    rcases List.mem_cons.mp hp with rfl | hp'
    · have hcq : stepPair store now c p
          = applyFindings c (_screen_rfc_against_notices store p.1 (some p.2)) now := by
        unfold stepPair
        rw [if_pos (beq_iff_eq.mpr hc)]
      rw [hcq]
      apply stepAll_no_match
      intro r hr hre
      apply hq1
      have hr1 : r.1
          = (applyFindings c (_screen_rfc_against_notices store p.1 (some p.2)) now).rfc := hre
      rw [applyFindings_rfc, hc] at hr1
      exact List.mem_map.mpr ⟨r, hr, hr1⟩
    · have hne : ¬(c.rfc = q.1) := by
        intro he
        apply hq1
        have : p.1 = q.1 := by rw [← hc, he]
        exact List.mem_map.mpr ⟨p, hp', this⟩
      have hcq : stepPair store now c q = c := by
        unfold stepPair
        rw [if_neg (fun hbeq => hne (eq_of_beq hbeq))]
      rw [hcq]
      exact ih hndtail p hp' c hc

theorem sweepLoop_snd_zero (store : List PublicNotice) (now : Nat)
    (pairs : List (String × String)) :
    ∀ (wl : List WatchlistCompany) (ch : Nat),
      (pairs.map Prod.fst).Nodup →
      (∀ c, c ∈ wl → ∀ p, p ∈ pairs → c.rfc = p.1 →
        c.risk_level = some (riskLevelValue
          (_screen_rfc_against_notices store p.1 (some p.2)).risk_level)) →
      (pairs.foldl (sweepStep store now) (wl, ch)).2 = ch := by
  induction pairs with
  | nil =>
    intro wl ch _ _
    rfl
  | cons p ps ih =>
    intro wl ch hnd hGood
    rw [List.map_cons] at hnd
    obtain ⟨hp1, hndtail⟩ := List.nodup_cons.mp hnd
    rw [List.foldl_cons]
    have hstep : sweepStep store now (wl, ch) p
        = (wl.map (fun c => stepPair store now c p),
           ch + (wl.filter (fun c =>
             c.rfc == p.1 && !(c.risk_level == some (riskLevelValue
               (_screen_rfc_against_notices store p.1 (some p.2)).risk_level)))).length) := rfl
    have hcnt : (wl.filter (fun c =>
        c.rfc == p.1 && !(c.risk_level == some (riskLevelValue
          (_screen_rfc_against_notices store p.1 (some p.2)).risk_level)))).length = 0 := by
      have hnil : wl.filter (fun c =>
          c.rfc == p.1 && !(c.risk_level == some (riskLevelValue
            (_screen_rfc_against_notices store p.1 (some p.2)).risk_level))) = [] := by
        rw [List.filter_eq_nil_iff]
        intro c hc
        by_cases hr : c.rfc = p.1
        · have := hGood c hc p (List.mem_cons_self p ps) hr
          simp [this]
        · simp [hr]
      rw [hnil]
      rfl
    rw [hstep, hcnt, Nat.add_zero]
    apply ih _ _ hndtail
    intro c' hc' q hq hq1
    rcases List.mem_map.mp hc' with ⟨c, hc, rfl⟩
    by_cases hcp : c.rfc = p.1
    · exfalso
      apply hp1
      have h1 : (stepPair store now c p).rfc = c.rfc := (stepPair_rfc store now c p).1
      have hq2 : q.1 = p.1 := by
        rw [← hq1, h1, hcp]
      exact List.mem_map.mpr ⟨q, hq, hq2⟩
    · have hcq : stepPair store now c p = c := by
        unfold stepPair
        rw [if_neg (fun hbeq => hcp (eq_of_beq hbeq))]
      rw [hcq] at hq1 ⊢
      exact hGood c hc q (List.mem_cons_of_mem p hq) hq1

/-- C9 (amended): running the sweep twice against a fixed evidence store
writes identical risk_score, risk_level, status, category and flag fields
both times; and — provided no tracked rfc appears in the watchlist under two
distinct razon_social values — the second run detects zero level transitions
(the previous level of every row already equals its newly computed level). -/
theorem c9_resweep_idempotent (store : List PublicNotice)
    (wl : List WatchlistCompany) (n1 n2 : Nat) :
    (sweep_watchlist_companies store
        (sweep_watchlist_companies store wl n1).1 n2).1.map riskFields
      = (sweep_watchlist_companies store wl n1).1.map riskFields ∧
    ((∀ c1, c1 ∈ wl → ∀ c2, c2 ∈ wl → c1.rfc = c2.rfc →
        c1.razon_social = c2.razon_social) →
      (sweep_watchlist_companies store
        (sweep_watchlist_companies store wl n1).1 n2).2 = 0) := by
  have h1 : (sweep_watchlist_companies store wl n1).1
      = wl.map (stepAll store n1 (distinctPairs wl)) := by
    rw [sweep_eq_foldl]
    exact sweepLoop_fst store n1 (distinctPairs wl) wl 0
  have hpairs : distinctPairs ((sweep_watchlist_companies store wl n1).1)
      = distinctPairs wl := by
    rw [h1]
    exact distinctPairs_map wl _ (fun c => stepAll_rfc store n1 (distinctPairs wl) c)
  constructor
  · have h2 : (sweep_watchlist_companies store
        (sweep_watchlist_companies store wl n1).1 n2).1
        = ((sweep_watchlist_companies store wl n1).1).map
            (stepAll store n2 (distinctPairs wl)) := by
      rw [sweep_eq_foldl, hpairs]
      exact sweepLoop_fst store n2 (distinctPairs wl) _ 0
    rw [h2, List.map_map]
    apply List.map_congr_left
    intro c' hc'
    show riskFields (stepAll store n2 (distinctPairs wl) c') = riskFields c'
    rw [h1] at hc'
    rcases List.mem_map.mp hc' with ⟨c, hc, rfl⟩
    have hr : (stepAll store n1 (distinctPairs wl) c).rfc = c.rfc :=
      (stepAll_rfc store n1 (distinctPairs wl) c).1
    by_cases hm : ∃ p, p ∈ distinctPairs wl ∧ p.1 = c.rfc
    · have hm2 : ∃ p, p ∈ distinctPairs wl ∧
          p.1 = (stepAll store n1 (distinctPairs wl) c).rfc := by
        rcases hm with ⟨p, hp, hp1⟩
        exact ⟨p, hp, by rw [hr]; exact hp1⟩
      exact stepAll_fields_congr store n2 n1 (distinctPairs wl)
        (stepAll store n1 (distinctPairs wl) c) c hr hm2
    · rw [stepAll_no_match store n2 (distinctPairs wl) _ ?_]
      intro p hp hpe
      apply hm
      refine ⟨p, hp, ?_⟩
      rw [← hr]
      exact hpe
  · intro hU
    rw [sweep_eq_foldl, hpairs]
    apply sweepLoop_snd_zero store n2 (distinctPairs wl) _ 0
      (distinctPairs_fst_nodup wl hU)
    intro c' hc' p hp hrfc
    rw [h1] at hc'
    rcases List.mem_map.mp hc' with ⟨c, hc, rfl⟩
    have hr : (stepAll store n1 (distinctPairs wl) c).rfc = c.rfc :=
      (stepAll_rfc store n1 (distinctPairs wl) c).1
    have happ : stepAll store n1 (distinctPairs wl) c
        = applyFindings c (_screen_rfc_against_notices store p.1 (some p.2)) n1 :=
      stepAll_applied store n1 (distinctPairs wl)
        (distinctPairs_fst_nodup wl hU) p hp c (by rw [← hr]; exact hrfc)
    rw [happ]
    rfl

/-- C9, counterexample: with one rfc tracked under two distinct names whose
name-fallback findings differ (HIGH via ALPHA, CLEAR via BETA), the
per-pair updates oscillate the rows, and the second run — on an unchanged
store — again counts 4 changed rows, not zero, refuting the claim as
stated. -/
theorem c9_second_run_transitions_counterexample :
    (sweep_watchlist_companies c9Store
      (sweep_watchlist_companies c9Store c9Watchlist 10).1 20).2 = 4 ∧
    (4 : Nat) ≠ 0 := by
  exact ⟨rfl, by decide⟩

/-- Witness for C9 at a concrete store and a watchlist whose single rfc has a
single name: the second run detects zero transitions. -/
theorem c9_resweep_idempotent_witness :
    (sweep_watchlist_companies c9Store
      (sweep_watchlist_companies c9Store
        [{ rfc := "XAXX010101000", razon_social := "ALPHA", risk_level := none,
           risk_score := none, art_69b_status := none, art_69_categories := none,
           art_69_bis_found := false, art_49_bis_found := false,
           last_screened_at := none }] 10).1 20).2 = 0 :=
  (c9_resweep_idempotent c9Store
    [{ rfc := "XAXX010101000", razon_social := "ALPHA", risk_level := none,
       risk_score := none, art_69b_status := none, art_69_categories := none,
       art_69_bis_found := false, art_49_bis_found := false,
       last_screened_at := none }] 10 20).2
    (by
      intro c1 h1 c2 h2 _
      rw [List.mem_singleton] at h1 h2
      rw [h1, h2])
